import Mathlib

/-!
Shallow embedding of `src/backend/routes/search.py`: the `/search/suggestions`
endpoint (`get_search_suggestions`) and its two helpers `_google_autocomplete`
and `_llm_suggestions`.  External effects (HTTP call to the Google suggest
endpoint, LLM chat-completion call) are modelled by explicit outcome values
passed to the functions; Python exceptions become `Except Unit`.
-/

/-- Python whitespace characters stripped by `str.strip()` (ASCII subset:
space, tab, newline, carriage return, vertical tab, form feed). -/
def isPySpace (c : Char) : Bool :=
  c = ' ' || c = '\t' || c = '\n' || c = '\r' || c = Char.ofNat 11 || c = Char.ofNat 12

/-- Embedding of Python `s.strip()`. -/
def pyStrip (s : String) : String :=
  String.mk (((s.toList.dropWhile isPySpace).reverse.dropWhile isPySpace).reverse)

/-- Index of the first occurrence of a character in a list, if any. -/
def pyFindAux (c : Char) : List Char → Option Nat
  | [] => none
  | x :: xs => if x = c then some 0 else (pyFindAux c xs).map (· + 1)

/-- Embedding of Python `s.find(c)` for a single character: `some i` for the
index of the first occurrence, `none` where Python returns `-1`. -/
def pyFind (s : String) (c : Char) : Option Nat :=
  pyFindAux c s.toList

/-- Embedding of Python `s.rfind(c)` for a single character: `some i` for the
index of the last occurrence, `none` where Python returns `-1`. -/
def pyRfind (s : String) (c : Char) : Option Nat :=
  (pyFindAux c s.toList.reverse).map (fun i => s.toList.length - 1 - i)

/-- Embedding of the Python slice `s[a:b]` for `0 ≤ a ≤ b` (out-of-range
bounds clamp, as in Python). -/
def pySlice (s : String) (a b : Nat) : String :=
  String.mk ((s.toList.drop a).take (b - a))

/-- Embedding of Python `s.startswith("[")`. -/
def startsWithBracket (s : String) : Bool :=
  match s.toList with
  | c :: _ => c = '['
  | [] => false

/-- JSON values, as produced by Python `json.loads`: `None`, booleans,
numbers (kept as their source text, since the code never inspects them),
strings, lists and dicts. -/
inductive Json where
  | null : Json
  | bool (b : Bool) : Json
  | num (raw : String) : Json
  | str (s : String) : Json
  | arr (elems : List Json) : Json
  | obj (fields : List (String × Json)) : Json

/-- Python `isinstance(v, str)`: keep the payload of a JSON string, drop
everything else. -/
def asStr : Json → Option String
  | Json.str s => some s
  | _ => none

/-- JSON whitespace accepted between tokens by `json.loads`. -/
def isJsonWs (c : Char) : Bool :=
  c = ' ' || c = '\t' || c = '\n' || c = '\r'

/-- Drop leading JSON whitespace. -/
def skipWs (cs : List Char) : List Char :=
  cs.dropWhile (fun c => isJsonWs c)

/-- Hexadecimal digit test, for `\u` escapes. -/
def isHexDigit (c : Char) : Bool :=
  ('0' ≤ c && c ≤ '9') || ('a' ≤ c && c ≤ 'f') || ('A' ≤ c && c ≤ 'F')

/-- Value of a hexadecimal digit. -/
def hexVal (c : Char) : Nat :=
  if '0' ≤ c && c ≤ '9' then c.toNat - '0'.toNat
  else if 'a' ≤ c && c ≤ 'f' then c.toNat - 'a'.toNat + 10
  else if 'A' ≤ c && c ≤ 'F' then c.toNat - 'A'.toNat + 10
  else 0

/-- Body of a JSON string literal (after the opening quote): characters and
escapes up to the closing quote.  Raw control characters are rejected, as in
strict-mode `json.loads`. -/
def parseStringBody : List Char → List Char → Option (String × List Char)
  | [], _ => none
  | '"' :: rest, acc => some (String.mk acc.reverse, rest)
  | '\\' :: 'u' :: a :: b :: c :: d :: rest, acc =>
    if isHexDigit a && isHexDigit b && isHexDigit c && isHexDigit d then
      parseStringBody rest
        (Char.ofNat (((hexVal a * 16 + hexVal b) * 16 + hexVal c) * 16 + hexVal d) :: acc)
    else none
  | '\\' :: e :: rest, acc =>
    if e = '"' then parseStringBody rest ('"' :: acc)
    else if e = '\\' then parseStringBody rest ('\\' :: acc)
    else if e = '/' then parseStringBody rest ('/' :: acc)
    else if e = 'b' then parseStringBody rest (Char.ofNat 8 :: acc)
    else if e = 'f' then parseStringBody rest (Char.ofNat 12 :: acc)
    else if e = 'n' then parseStringBody rest ('\n' :: acc)
    else if e = 'r' then parseStringBody rest ('\r' :: acc)
    else if e = 't' then parseStringBody rest ('\t' :: acc)
    else none
  | c :: rest, acc =>
    if c = '"' || c = '\\' || c.toNat < 32 then none
    else parseStringBody rest (c :: acc)

/-- A JSON number token: optional sign, integer part, optional fraction and
exponent; the source text is kept. -/
def parseNumber (cs : List Char) : Option (Json × List Char) :=
  let signSplit : List Char × List Char :=
    match cs with
    | '-' :: rest => (['-'], rest)
    | _ => ([], cs)
  let sign := signSplit.1
  let cs1 := signSplit.2
  let ip := cs1.takeWhile Char.isDigit
  let cs2 := cs1.dropWhile Char.isDigit
  if ip = [] then none
  else
    let fracSplit : Option (List Char × List Char) :=
      match cs2 with
      | '.' :: rest =>
        let ds := rest.takeWhile Char.isDigit
        if ds = [] then none
        else some ('.' :: ds, rest.dropWhile Char.isDigit)
      | _ => some ([], cs2)
    match fracSplit with
    | none => none
    | some (fr, cs3) =>
      let expSplit : Option (List Char × List Char) :=
        match cs3 with
        | e :: rest =>
          if e = 'e' || e = 'E' then
            let signRest : List Char × List Char :=
              match rest with
              | s :: r2 => if s = '+' || s = '-' then ([s], r2) else ([], s :: r2)
              | [] => ([], [])
            let ds := signRest.2.takeWhile Char.isDigit
            if ds = [] then none
            else some (e :: (signRest.1 ++ ds), signRest.2.dropWhile Char.isDigit)
          else some ([], cs3)
        | [] => some ([], cs3)
      match expSplit with
      | none => none
      | some (ex, cs4) =>
        some (Json.num (String.mk (sign ++ ip ++ fr ++ ex)), cs4)

mutual

/-- Fuel-indexed JSON value parser (the fuel only bounds nesting depth; it is
chosen large enough in `jsonLoads`). -/
def parseVal : Nat → List Char → Option (Json × List Char)
  | 0, _ => none
  | fuel + 1, cs =>
    match skipWs cs with
    | [] => none
    | 'n' :: 'u' :: 'l' :: 'l' :: rest => some (Json.null, rest)
    | 't' :: 'r' :: 'u' :: 'e' :: rest => some (Json.bool true, rest)
    | 'f' :: 'a' :: 'l' :: 's' :: 'e' :: rest => some (Json.bool false, rest)
    | '"' :: rest => (parseStringBody rest []).map (fun p => (Json.str p.1, p.2))
    | '[' :: rest =>
      (match skipWs rest with
       | ']' :: rest2 => some (Json.arr [], rest2)
       | _ => parseArrItems fuel rest [])
    | '{' :: rest =>
      (match skipWs rest with
       | '}' :: rest2 => some (Json.obj [], rest2)
       | _ => parseObjItems fuel rest [])
    | c :: rest => parseNumber (c :: rest)

/-- Comma-separated array elements up to the closing bracket. -/
def parseArrItems : Nat → List Char → List Json → Option (Json × List Char)
  | 0, _, _ => none
  | fuel + 1, cs, acc =>
    match parseVal fuel cs with
    | none => none
    | some (v, rest) =>
      match skipWs rest with
      | ',' :: rest2 => parseArrItems fuel rest2 (v :: acc)
      | ']' :: rest2 => some (Json.arr (v :: acc).reverse, rest2)
      | _ => none

/-- Comma-separated `"key": value` object members up to the closing brace. -/
def parseObjItems : Nat → List Char → List (String × Json) → Option (Json × List Char)
  | 0, _, _ => none
  | fuel + 1, cs, acc =>
    match skipWs cs with
    | '"' :: rest =>
      (match parseStringBody rest [] with
       | none => none
       | some (k, rest2) =>
         match skipWs rest2 with
         | ':' :: rest3 =>
           (match parseVal fuel rest3 with
            | none => none
            | some (v, rest4) =>
              match skipWs rest4 with
              | ',' :: rest5 => parseObjItems fuel rest5 ((k, v) :: acc)
              | '}' :: rest5 => some (Json.obj ((k, v) :: acc).reverse, rest5)
              | _ => none)
         | _ => none)
    | _ => none

end

/-- Embedding of Python `json.loads`: parse one JSON value, allow only
trailing whitespace, `none` where Python raises. -/
def jsonLoads (s : String) : Option Json :=
  match parseVal (s.toList.length + 2) s.toList with
  | some (j, rest) => if skipWs rest = [] then some j else none
  | none => none

/-- The endpoint's pydantic response model `SuggestionsResponse`. -/
structure SuggestionsResponse where
  suggestions : List String
  query : String
deriving Repr, DecidableEq

/-- Outcome of the HTTP GET against the Google suggest endpoint, as seen by
`_google_autocomplete`: either the transport raises (timeout, connection
error), or a response with a status code and a body arrives. -/
inductive HttpOutcome where
  | exn : HttpOutcome
  | resp (status : Nat) (body : String) : HttpOutcome

/-- Outcome of the LLM chat-completion call, as seen by `_llm_suggestions`:
either the call raises, or it returns with `choices[0].message.content`
(which may be `None`). -/
inductive LlmOutcome where
  | exn : LlmOutcome
  | ok (content : Option String) : LlmOutcome

/-- The behaviour of both external services during one request. -/
structure ExternalBehaviour where
  google : HttpOutcome
  llm : LlmOutcome

/-- Embedding of `_google_autocomplete(q, limit)`.  `Except.error ()` stands
for a raised exception: transport failure, `raise_for_status` on any non-2xx
status (httpx raises `HTTPStatusError` for 1xx, 3xx, 4xx and 5xx alike, and
redirects are not followed by default), or `r.json()` on a body that is not
valid JSON.  On a JSON body `data`, when `data` is a list of length ≥ 2
whose second element is a list, the string elements of that list are
returned truncated to `limit`; otherwise the function returns `[]`. -/
def google_autocomplete (q : String) (limit : Nat) (o : HttpOutcome) :
    Except Unit (List String) :=
  match o with
  | HttpOutcome.exn => Except.error ()
  | HttpOutcome.resp status body =>
    if status < 200 ∨ 300 ≤ status then Except.error ()
    else
      match jsonLoads body with
      | none => Except.error ()
      | some data =>
        match data with
        | Json.arr (_ :: second :: _) =>
          (match second with
           | Json.arr elems => Except.ok ((elems.filterMap asStr).take limit)
           | _ => Except.ok [])
        | _ => Except.ok []

/-- The inline last-resort fallback at the end of `_llm_suggestions`:
`[f"{q} tutorial", f"{q} example", f"{q} documentation", f"how to {q}",
f"{q} guide"][:limit]`. -/
def llmFallback (q : String) (limit : Nat) : List String :=
  ([q ++ " tutorial", q ++ " example", q ++ " documentation",
    "how to " ++ q, q ++ " guide"]).take limit

/-- Embedding of `_llm_suggestions(q, limit)`.  `Except.error ()` stands for
the chat-completion call itself raising.  Otherwise the content (with `None`
replaced by `""`) is stripped and parsed: if it starts with `[` it is parsed
directly, else the substring from the first `[` to the last `]` is parsed
when such a well-ordered pair exists, and Python's `arr = []` is used when it
does not.  A JSON list yields its string elements truncated to `limit`; a
parse error or a non-list parse result falls through to the inline
fallback. -/
def llmSuggestions (q : String) (limit : Nat) (o : LlmOutcome) :
    Except Unit (List String) :=
  match o with
  | LlmOutcome.exn => Except.error ()
  | LlmOutcome.ok contentOpt =>
    let content := pyStrip (contentOpt.getD "")
    Except.ok <|
      if startsWithBracket content then
        match jsonLoads content with
        | some (Json.arr elems) => (elems.filterMap asStr).take limit
        | _ => llmFallback q limit
      else
        match pyFind content '[', pyRfind content ']' with
        | some s, some e =>
          if s < e + 1 then
            match jsonLoads (pySlice content s (e + 1)) with
            | some (Json.arr elems) => (elems.filterMap asStr).take limit
            | _ => llmFallback q limit
          else []
        | _, _ => []

/-- The clamp `limit = max(1, min(int(limit), 10))` performed by the
endpoint, as a natural number usable for truncation. -/
def clampLimit (limit : Int) : Nat :=
  (max 1 (min limit 10)).toNat

/-- The resolver's own final fallback list (step 3 of the chain), before the
truncation `fallback[:limit]` applied at the return site. -/
def finalFallbackList (q : String) : List String :=
  [q ++ " tutorial", q ++ " example", q ++ " documentation",
   "how to " ++ q, q ++ " guide"]

/-- Steps 2 and 3 of `get_search_suggestions`: the LLM fallback inside its
`try`, and the final static fallback when the LLM call raises.  `q1` is the
stripped query and `lim` the clamped limit. -/
def llmAndFallback (q1 : String) (lim : Nat) (llm : LlmOutcome) :
    SuggestionsResponse :=
  match llmSuggestions q1 lim llm with
  | Except.ok s => { suggestions := s.take lim, query := q1 }
  | Except.error _ => { suggestions := (finalFallbackList q1).take lim, query := q1 }

/-- Embedding of the endpoint `get_search_suggestions(q, limit)` given the
behaviour of the two external services.  Short queries (`not q or
len(q.strip()) < 2`) return an empty list with the original query; otherwise
the query is stripped, the limit clamped, and the Google suggest result is
used when it is non-empty, with `llmAndFallback` covering steps 2 and 3. -/
def get_search_suggestions (q : String) (limit : Int) (ext : ExternalBehaviour) :
    SuggestionsResponse :=
  if q = "" ∨ (pyStrip q).length < 2 then
    { suggestions := [], query := q }
  else
    match google_autocomplete (pyStrip q) (clampLimit limit) ext.google with
    | Except.ok s =>
      if s ≠ [] then { suggestions := s.take (clampLimit limit), query := pyStrip q }
      else llmAndFallback (pyStrip q) (clampLimit limit) ext.llm
    | Except.error _ => llmAndFallback (pyStrip q) (clampLimit limit) ext.llm

/-! Helper lemmas. -/

/-- Steps 2 and 3 both truncate to the clamped limit. -/
theorem llmAndFallback_length_le (q1 : String) (lim : Nat) (llm : LlmOutcome) :
    (llmAndFallback q1 lim llm).suggestions.length ≤ lim := by
  unfold llmAndFallback
  cases llmSuggestions q1 lim llm with
  | ok s => simp only [llmAndFallback]; exact List.length_take_le lim s
  | error e => simp only [llmAndFallback]; exact List.length_take_le lim (finalFallbackList q1)

/-- The clamped limit, read back as an integer, is `max 1 (min limit 10)`. -/
theorem clampLimit_cast (limit : Int) : (clampLimit limit : Int) = max 1 (min limit 10) := by
  unfold clampLimit
  rw [Int.toNat_of_nonneg]
  exact le_trans zero_le_one (le_max_left _ _)

/-- Every path of the endpoint truncates the suggestion list to the clamped
limit (or returns the empty list). -/
theorem get_search_suggestions_length_le (q : String) (limit : Int)
    (ext : ExternalBehaviour) :
    (get_search_suggestions q limit ext).suggestions.length ≤ clampLimit limit := by
  unfold get_search_suggestions
  split
  · simp
  · cases google_autocomplete (pyStrip q) (clampLimit limit) ext.google with
    | ok s =>
      by_cases hs : s = []
      · subst hs
        simp only [ne_eq, not_true_eq_false, if_false, reduceIte]
        exact llmAndFallback_length_le (pyStrip q) (clampLimit limit) ext.llm
      · simp [hs]
    | error e => exact llmAndFallback_length_le (pyStrip q) (clampLimit limit) ext.llm

/-! The claims. -/

/-- Claim C1: for every query string, integer limit and behaviour of the two
external sources (success, exception, or arbitrary response body), the
endpoint never raises to its caller and always returns a structurally valid
`SuggestionsResponse`, i.e. a list of strings paired with a query string.
In the embedding `get_search_suggestions` is a total function into
`SuggestionsResponse`, every exception of the two sources being caught. -/
theorem get_search_suggestions_total (q : String) (limit : Int)
    (ext : ExternalBehaviour) :
    ∃ (s : List String) (qq : String),
      get_search_suggestions q limit ext = { suggestions := s, query := qq } :=
  ⟨(get_search_suggestions q limit ext).suggestions,
   (get_search_suggestions q limit ext).query, rfl⟩

/-- Claim C2, counterexample: with caller-supplied `limit = 0` (outside
`[1,10]`), query `"cat"` and both sources failing, the endpoint returns one
suggestion, so `len(suggestions) <= limit` fails for the caller-supplied
limit. -/
theorem suggestions_length_gt_caller_limit :
    ¬ (((get_search_suggestions "cat" 0
          ⟨HttpOutcome.exn, LlmOutcome.exn⟩).suggestions.length : Int) ≤ 0) := by
  decide

/-- Claim C2 (amended): for every query, caller-supplied integer limit and
source behaviour, `len(suggestions) <= max(1, min(limit, 10))`; the
caller-supplied limit itself is an upper bound only once clamped, so for
limits below 1 the list may contain one element. -/
theorem suggestions_length_le_clamped_limit (q : String) (limit : Int)
    (ext : ExternalBehaviour) :
    ((get_search_suggestions q limit ext).suggestions.length : Int) ≤
      max 1 (min limit 10) := by
  rw [← clampLimit_cast limit]
  exact_mod_cast get_search_suggestions_length_le q limit ext

/-- Claim C3: for every query whose stripped length is `< 2` and every limit,
the endpoint returns the empty suggestion list paired with the original,
untrimmed query, whatever the external sources would do (so in particular
without depending on — hence without invoking — any of them). -/
theorem short_query_bypasses_sources (q : String) (limit : Int)
    (ext : ExternalBehaviour) (h : (pyStrip q).length < 2) :
    get_search_suggestions q limit ext = { suggestions := [], query := q } := by
  unfold get_search_suggestions
  rw [if_pos (Or.inr h)]

/-- Witness for C3 at the concrete short query `" a "` with limit `7` and
both sources primed to answer. -/
theorem short_query_bypasses_sources_witness :
    (pyStrip " a ").length < 2 ∧
      get_search_suggestions " a " 7
        ⟨HttpOutcome.resp 200 "[\"ignored\", [\"zzz\"]]", LlmOutcome.ok (some "[\"w\"]")⟩ =
        { suggestions := [], query := " a " } :=
  ⟨by decide, short_query_bypasses_sources " a " 7 _ (by decide)⟩

/-- Claim C4: the effective limit used by the endpoint — the value it passes
to both sources and truncates with — is `max(1, min(limit, 10))`: the clamp
it computes equals that expression, and calling the endpoint with any
integer limit is indistinguishable from calling it with the clamped
value. -/
theorem effective_limit_is_clamp (q : String) (limit : Int) (ext : ExternalBehaviour) :
    (clampLimit limit : Int) = max 1 (min limit 10) ∧
      get_search_suggestions q limit ext =
        get_search_suggestions q (max 1 (min limit 10)) ext := by
  refine ⟨clampLimit_cast limit, ?_⟩
  have hc : clampLimit limit = clampLimit (max 1 (min limit 10)) := by
    unfold clampLimit
    omega
  unfold get_search_suggestions
  rw [hc]

/-- Claim C5: on the body `["ignored", ["a","b","c"]]` with query `"cat"`
and limit `2` the endpoint answers `["a","b"]` paired with `"cat"`; in
general, whenever the suggest response has a 2xx status (the only statuses
`raise_for_status` lets through) and a JSON body that is a list of length
≥ 2 whose second element is a list, the suggest step returns exactly the
string elements of that second list, in order, truncated to the limit it
was given. -/
theorem google_step_extracts_strings :
    get_search_suggestions "cat" 2
        ⟨HttpOutcome.resp 200 "[\"ignored\", [\"a\",\"b\",\"c\"]]", LlmOutcome.exn⟩ =
      { suggestions := ["a", "b"], query := "cat" } ∧
    ∀ (q : String) (limit status : Nat) (body : String) (x : Json)
      (elems rest : List Json),
      200 ≤ status →
      status < 300 →
      jsonLoads body = some (Json.arr (x :: Json.arr elems :: rest)) →
      google_autocomplete q limit (HttpOutcome.resp status body) =
        Except.ok ((elems.filterMap asStr).take limit) := by
  constructor
  · rfl
  · intro q limit status body x elems rest hs1 hs2 hj
    have hok : ¬ (status < 200 ∨ 300 ≤ status) := by omega
    simp only [google_autocomplete]
    rw [if_neg hok, hj]

/-- Witness for the general part of C5: a concrete body whose second element
mixes strings and non-strings; only the strings survive, truncated to the
limit. -/
theorem google_step_extracts_strings_witness :
    (200 : Nat) < 300 ∧
      google_autocomplete "cat" 2 (HttpOutcome.resp 200 "[\"ignored\", [\"a\",\"b\",\"c\"]]") =
        Except.ok ["a", "b"] :=
  ⟨by omega,
   google_step_extracts_strings.2 "cat" 2 200 _ (Json.str "ignored")
     [Json.str "a", Json.str "b", Json.str "c"] [] (by omega) (by omega) (by rfl)⟩

/-- Claim C6: when the suggest source fails and the LLM answers the text
`Suggestions: ["x","y"]` for query `"dog"` and limit `5`, the endpoint
answers `["x","y"]` paired with `"dog"`; in general, when the stripped LLM
content does not start with `[` but contains a first `[` before a last `]`,
and that substring parses as a JSON list, the LLM step returns the string
elements of that list, in order, truncated to the limit. -/
theorem llm_step_bracket_substring :
    get_search_suggestions "dog" 5
        ⟨HttpOutcome.exn, LlmOutcome.ok (some "Suggestions: [\"x\",\"y\"]")⟩ =
      { suggestions := ["x", "y"], query := "dog" } ∧
    ∀ (q : String) (limit : Nat) (content : String) (i j : Nat) (elems : List Json),
      startsWithBracket (pyStrip content) = false →
      pyFind (pyStrip content) '[' = some i →
      pyRfind (pyStrip content) ']' = some j →
      i < j + 1 →
      jsonLoads (pySlice (pyStrip content) i (j + 1)) = some (Json.arr elems) →
      llmSuggestions q limit (LlmOutcome.ok (some content)) =
        Except.ok ((elems.filterMap asStr).take limit) := by
  constructor
  · rfl
  · intro q limit content i j elems h0 h1 h2 h3 h4
    unfold llmSuggestions
    simp only [Option.getD_some, h0, h1, h2, h4, if_pos h3, Bool.false_eq_true,
      if_false]

/-- Witness for the general part of C6: the concrete LLM text
`Suggestions: ["x","y"]` with limit `5`. -/
theorem llm_step_bracket_substring_witness :
    startsWithBracket (pyStrip "Suggestions: [\"x\",\"y\"]") = false ∧
      llmSuggestions "dog" 5 (LlmOutcome.ok (some "Suggestions: [\"x\",\"y\"]")) =
        Except.ok ["x", "y"] :=
  ⟨by rfl,
   llm_step_bracket_substring.2 "dog" 5 "Suggestions: [\"x\",\"y\"]" 13 21
     [Json.str "x", Json.str "y"] (by rfl) (by rfl) (by rfl) (by omega) (by rfl)⟩

/-- Claim C7: when both network sources raise for query `"fish"` and limit
`3`, the endpoint answers the three first static-pattern suggestions paired
with `"fish"`; in general, when the suggest step raises (any transport
error, error status or bad body) and the LLM call raises, the answer is the
fixed pattern list built from the stripped query, truncated to the clamped
limit. -/
theorem double_failure_static_fallback :
    get_search_suggestions "fish" 3 ⟨HttpOutcome.exn, LlmOutcome.exn⟩ =
      { suggestions := ["fish tutorial", "fish example", "fish documentation"],
        query := "fish" } ∧
    ∀ (q : String) (limit : Int) (g : HttpOutcome),
      ¬ (q = "" ∨ (pyStrip q).length < 2) →
      google_autocomplete (pyStrip q) (clampLimit limit) g = Except.error () →
      get_search_suggestions q limit ⟨g, LlmOutcome.exn⟩ =
        { suggestions :=
            ([pyStrip q ++ " tutorial", pyStrip q ++ " example",
              pyStrip q ++ " documentation", "how to " ++ pyStrip q,
              pyStrip q ++ " guide"]).take (clampLimit limit),
          query := pyStrip q } := by
  constructor
  · rfl
  · intro q limit g hq hg
    unfold get_search_suggestions
    rw [if_neg hq, hg]
    rfl

/-- Witness for the general part of C7 at query `"fish"`, limit `3`, with a
transport error on the suggest side. -/
theorem double_failure_static_fallback_witness :
    ¬ (("fish" : String) = "" ∨ (pyStrip "fish").length < 2) ∧
      get_search_suggestions "fish" 3 ⟨HttpOutcome.exn, LlmOutcome.exn⟩ =
        { suggestions := ["fish tutorial", "fish example", "fish documentation"],
          query := "fish" } :=
  ⟨by decide, double_failure_static_fallback.2 "fish" 3 HttpOutcome.exn
    (by decide) (by rfl)⟩

/-- Claim C8: the static fallback built inline in the LLM step (on parse
failure) and the resolver's own last-resort fallback produce identical
output for the same query and effective limit. -/
theorem fallbacks_agree (q : String) (limit : Nat) :
    llmFallback q limit = (finalFallbackList q).take limit := rfl

/-- Claim C9: the endpoint is a pure function of the query, the limit and
the behaviour of the two external services; two calls under identical
external behaviour give identical responses, with no hidden state. -/
theorem resolution_deterministic (q : String) (limit : Int)
    (e1 e2 : ExternalBehaviour) (hg : e1.google = e2.google)
    (hl : e1.llm = e2.llm) :
    get_search_suggestions q limit e1 = get_search_suggestions q limit e2 := by
  cases e1
  cases e2
  cases hg
  cases hl
  rfl

/-- Witness for C9 at a concrete repeated call. -/
theorem resolution_deterministic_witness :
    (ExternalBehaviour.mk HttpOutcome.exn LlmOutcome.exn).google =
        (ExternalBehaviour.mk HttpOutcome.exn LlmOutcome.exn).google ∧
      get_search_suggestions "cat" 5 ⟨HttpOutcome.exn, LlmOutcome.exn⟩ =
        get_search_suggestions "cat" 5 ⟨HttpOutcome.exn, LlmOutcome.exn⟩ :=
  ⟨rfl, resolution_deterministic "cat" 5 _ _ rfl rfl⟩

/-- Claim C10: when the suggest step succeeds with zero suggestions and the
LLM call succeeds with content that parses to a JSON list containing no
string element, the endpoint answers the empty list: neither the inline LLM
fallback (the parse succeeded on a list) nor the final static fallback (the
LLM step returned normally) is reached. -/
theorem empty_llm_array_yields_empty (q : String) (limit : Int) (g : HttpOutcome)
    (content : String) (elems : List Json)
    (hq : ¬ (q = "" ∨ (pyStrip q).length < 2))
    (hg : google_autocomplete (pyStrip q) (clampLimit limit) g = Except.ok [])
    (h0 : startsWithBracket (pyStrip content) = true)
    (hj : jsonLoads (pyStrip content) = some (Json.arr elems))
    (hs : elems.filterMap asStr = []) :
    get_search_suggestions q limit ⟨g, LlmOutcome.ok (some content)⟩ =
      { suggestions := [], query := pyStrip q } := by
  unfold get_search_suggestions
  rw [if_neg hq, hg]
  simp only [ne_eq, not_true_eq_false, if_false, reduceIte]
  unfold llmAndFallback llmSuggestions
  simp only [Option.getD_some, h0, hj, hs, if_true, List.take_nil]

/-- Witness for C10: suggest body `[]` (a list too short to extract from)
and LLM content `[1, 2]` (a JSON list with no strings). -/
theorem empty_llm_array_yields_empty_witness :
    startsWithBracket (pyStrip "[1, 2]") = true ∧
      get_search_suggestions "cat" 5
        ⟨HttpOutcome.resp 200 "[]", LlmOutcome.ok (some "[1, 2]")⟩ =
        { suggestions := [], query := "cat" } :=
  ⟨by rfl,
   empty_llm_array_yields_empty "cat" 5 (HttpOutcome.resp 200 "[]") "[1, 2]"
     [Json.num "1", Json.num "2"] (by decide) (by rfl) (by rfl) (by rfl) (by rfl)⟩
